import Mathlib

/-!
# Verification of the request-authorization core of go-rest-api-starter

Shallow embedding of the repository's authorization and input-validation
code, and proofs of the specification claims about it.

Embedded source files:
* `internal/contextutil/context.go` — request-context accessors
  (`GetUserID`, `MustGetUserID`, `GetUserRole`, `IsAuthenticated`,
  `CanAccessUser`, `HasRole`, `IsAdmin`, `SetUserID`, `SetUserRole`).
* `internal/middleware/rbac.go` — `GatewayAuthMiddleware`, the typed
  context accessors and the variadic `RequireRole` gate.
* `internal/middleware/input_validation.go` — the attack-signature
  tables, `isSuspicious` and `SanitizeString`.
* `internal/auth/jwt_generator.go` — `NewJWTGenerator`'s effective-secret
  and TTL computation.

A gin request context is modelled as an association list of context keys
to stored values; `c.Set` prepends and `c.Get` returns the most recent
binding, which is observationally the map-overwrite behaviour of gin.
Stored values carry the dynamic type used by the Go code's type switches
(`uint`, `int`, `string`, other).  Go `uint` values are modelled as `Nat`
(the code only ever stores values below `2^32`, parsed with a 32-bit
bound); fallible operations return `Except`/`Option`.
-/

/-- The dynamic type of a value stored in the gin context (the Go code
stores `uint`, `int` or `string` and type-switches on retrieval). -/
inductive CtxValue where
  | vUInt (n : Nat)
  | vInt (n : Int)
  | vString (s : String)
  | vOther
deriving DecidableEq, Repr

/-- Model of a `*gin.Context`'s key/value store: latest binding first. -/
structure GinContext where
  store : List (String × CtxValue)
deriving DecidableEq, Repr

/-- `c.Get(key)`: the most recently set value for `key`, if any. -/
def GinContext.get (c : GinContext) (k : String) : Option CtxValue :=
  match c.store.find? (fun p => p.1 == k) with
  | some p => some p.2
  | none => none

/-- `c.Set(key, value)`: bind `key` to `value` (shadowing older bindings,
observationally the same as gin's map overwrite). -/
def GinContext.set (c : GinContext) (k : String) (v : CtxValue) : GinContext :=
  ⟨(k, v) :: c.store⟩

/-- A fresh request context with nothing attached. -/
def emptyCtx : GinContext := ⟨[]⟩

/-! ## strconv.ParseUint(s, 10, 32) -/

/-- An ASCII decimal digit. -/
def charIsDigit (c : Char) : Bool := decide ('0' ≤ c) && decide (c ≤ '9')

/-- The numeric value denoted by a string of decimal digits. -/
def digitsVal (s : String) : Nat :=
  s.data.foldl (fun a c => a * 10 + (c.toNat - 48)) 0

/-- Go `strconv.ParseUint(s, 10, 32)`: fails on the empty string, on any
non-digit character (base 10 admits no sign, no underscores), and on
values not representable in 32 bits; otherwise returns the denoted value. -/
def parseUint32 (s : String) : Option Nat :=
  if s.isEmpty then none
  else if s.data.all charIsDigit then
    if digitsVal s < 2 ^ 32 then some (digitsVal s) else none
  else none

/-! ## internal/contextutil/context.go -/

/-- Context key `"user_id"` (`contextutil.UserIDKey`). -/
def UserIDKey : String := "user_id"

/-- Context key `"user_role"` (`contextutil.UserRoleKey`). -/
def UserRoleKey : String := "user_role"

/-- Go's `uint(v)` conversion of an `int` (64-bit platform wraparound);
only reached by `GetUserID`'s defensive `int` branch. -/
def goUintOfInt (v : Int) : Nat := (v % (2 : Int) ^ 64).toNat

/-- `contextutil.GetUserID`: the stored user id, or the sentinel 0 when
the key is unset or the stored value has an unexpected shape; a stored
string is re-parsed with `ParseUint(v, 10, 32)`. -/
def GetUserID (c : GinContext) : Nat :=
  match c.get UserIDKey with
  | none => 0
  | some (CtxValue.vUInt v) => v
  | some (CtxValue.vInt v) => goUintOfInt v
  | some (CtxValue.vString v) =>
      match parseUint32 v with
      | none => 0
      | some id => id
  | some CtxValue.vOther => 0

/-- `contextutil.MustGetUserID`: the stored id, or an error when the
sentinel 0 would be returned. -/
def MustGetUserID (c : GinContext) : Except String Nat :=
  let userID := GetUserID c
  if userID = 0 then Except.error "user ID not found in context"
  else Except.ok userID

/-- `contextutil.GetUserRole`: the stored role string, or `""` when unset
or of a non-string shape. -/
def GetUserRole (c : GinContext) : String :=
  match c.get UserRoleKey with
  | none => ""
  | some (CtxValue.vString role) => role
  | some _ => ""

/-- `contextutil.MustGetUserRole`: the stored role, or an error when the
empty string would be returned. -/
def MustGetUserRole (c : GinContext) : Except String String :=
  let role := GetUserRole c
  if role = "" then Except.error "user role not found in context"
  else Except.ok role

/-- `contextutil.IsAuthenticated`: true iff `GetUserID(c) != 0`. -/
def IsAuthenticated (c : GinContext) : Bool := GetUserID c != 0

/-- `contextutil.HasRole`: exact (case-sensitive) string equality of the
stored role with the requested role. -/
def HasRole (c : GinContext) (role : String) : Bool := GetUserRole c == role

/-- `contextutil.IsAdmin` := `HasRole(c, "admin")`. -/
def IsAdmin (c : GinContext) : Bool := HasRole c "admin"

/-- `contextutil.CanAccessUser`: admins may access anyone; otherwise the
authenticated id must equal the target id. -/
def CanAccessUser (c : GinContext) (targetUserID : Nat) : Bool :=
  if IsAdmin c then true
  else GetUserID c == targetUserID

/-- `contextutil.GetRoles`: singleton role list, empty when no role. -/
def GetRoles (c : GinContext) : List String :=
  let role := GetUserRole c
  if role = "" then [] else [role]

/-- `contextutil.SetUserID`: stores the id (a Go `uint`) under `"user_id"`. -/
def SetUserID (c : GinContext) (userID : Nat) : GinContext :=
  c.set UserIDKey (CtxValue.vUInt userID)

/-- `contextutil.SetUserRole`: stores the role string under `"user_role"`. -/
def SetUserRole (c : GinContext) (role : String) : GinContext :=
  c.set UserRoleKey (CtxValue.vString role)

/-- Attaching a principal (id and role) to the request context via the
two `contextutil` setters, the order used throughout the code. -/
def attachPrincipal (u : Nat) (r : String) (c : GinContext) : GinContext :=
  SetUserRole (SetUserID c u) r

/-! ## internal/middleware/rbac.go -/

/-- The inbound identity headers as returned by `c.GetHeader`: gin yields
`""` both for an absent header and for a present-but-empty one, so the
empty string models "no identity signal". -/
structure Headers where
  userID : String
  userRole : String
deriving DecidableEq, Repr

/-- Header name `"X-User-ID"`. -/
def HeaderUserID : String := "X-User-ID"

/-- Header name `"X-User-Role"`. -/
def HeaderUserRole : String := "X-User-Role"

/-- Context key `"user_id"` (`middleware.ContextKeyUserID`); the same
string as `contextutil.UserIDKey`. -/
def ContextKeyUserID : String := "user_id"

/-- Context key `"user_role"` (`middleware.ContextKeyUserRole`). -/
def ContextKeyUserRole : String := "user_role"

/-- Outcome of a middleware stage: either the pipeline continues with the
(possibly updated) request context (`c.Next()`), or the middleware wrote
a JSON error with an HTTP status and called `c.Abort()`, so the handler
is never reached.  `reject` carries the context as it stood at the
abort, which the middleware did not modify. -/
inductive GateResult where
  | reject (status : Nat) (msg : String) (ctx : GinContext)
  | proceed (ctx : GinContext)
deriving DecidableEq, Repr

/-- `middleware.GatewayAuthMiddleware`: reads `X-User-ID` (missing/empty →
401 "missing user ID header"), parses it with `ParseUint(_, 10, 32)`
(failure → 401 "invalid user ID format"), defaults an absent/empty
`X-User-Role` to `"user"`, and stores id and role in the context. -/
def GatewayAuthMiddleware (h : Headers) (c : GinContext) : GateResult :=
  if h.userID = "" then
    GateResult.reject 401 "missing user ID header" c
  else
    match parseUint32 h.userID with
    | none => GateResult.reject 401 "invalid user ID format" c
    | some userID =>
        let userRole := if h.userRole = "" then "user" else h.userRole
        GateResult.proceed
          ((c.set ContextKeyUserID (CtxValue.vUInt userID)).set
            ContextKeyUserRole (CtxValue.vString userRole))

/-- `middleware.GetUserIDFromContext`: the stored id together with the
`ok` flag of the `uint` type assertion (`none` models `ok = false`). -/
def GetUserIDFromContext (c : GinContext) : Option Nat :=
  match c.get ContextKeyUserID with
  | some (CtxValue.vUInt id) => some id
  | _ => none

/-- `middleware.GetUserRoleFromContext`: the stored role together with
the `ok` flag of the `string` type assertion. -/
def GetUserRoleFromContext (c : GinContext) : Option String :=
  match c.get ContextKeyUserRole with
  | some (CtxValue.vString role) => some role
  | _ => none

/-- Go `strings.EqualFold`, restricted to the ASCII folding performed by
`Char.toLower` (all roles in this code base are ASCII): the strings are
equal character-wise after folding each character to lower case. -/
def EqualFold (s t : String) : Bool :=
  s.data.map Char.toLower == t.data.map Char.toLower

/-- The variadic `middleware.RequireRole(roles...)` gate: 401 when no
role is attached, otherwise pass iff the attached role `EqualFold`s some
member of `roles`, else 403. -/
def RequireRole (roles : List String) (c : GinContext) : GateResult :=
  match GetUserRoleFromContext c with
  | none => GateResult.reject 401 "user role not found" c
  | some userRole =>
      if roles.any (fun role => EqualFold userRole role) then
        GateResult.proceed c
      else
        GateResult.reject 403 "insufficient permissions" c

/-- `middleware.RequireAdminRole` := `RequireRole("admin")`. -/
def RequireAdminRole (c : GinContext) : GateResult := RequireRole ["admin"] c

/-! ## internal/middleware/input_validation.go

The attack-signature tables are Go (RE2) regular expressions, all under
a `(?i)` flag.  We embed a small regex language covering exactly the
constructs they use — literals, `.`, character classes (`[^>]`, `\w`,
`\s`), concatenation, alternation `|`, `*`/`+` repetition and the word
boundary `\b` — with a backtracking matcher; `MatchString` asks whether
a match starts anywhere in the input.  The `(?i)` flag is modelled by
lower-casing the input and writing pattern literals in lower case (all
pattern literals are ASCII).  Laziness (`.*?`) is irrelevant to
`MatchString`, which only observes whether some match exists. -/

/-- Regex abstract syntax (the fragment used by the signature tables). -/
inductive Regex where
  | emp
  | chr (c : Char)
  | cls (p : Char → Bool)
  | anyc
  | cat (r s : Regex)
  | alt (r s : Regex)
  | star (r : Regex)
  | wordB

/-- Structural size, for termination of the matcher. -/
def Regex.size : Regex → Nat
  | .cat r s => r.size + s.size + 1
  | .alt r s => r.size + s.size + 1
  | .star r => r.size + 1
  | _ => 1

/-- Go regex `\w`: `[0-9A-Za-z_]`. -/
def isWordChar (c : Char) : Bool := c.isAlphanum || c == '_'

/-- Go regex `\s`: `[\t\n\f\r ]` (RE2 Perl whitespace). -/
def isPerlSpace (c : Char) : Bool :=
  c == ' ' || c == '\t' || c == '\n' || c == '\x0b' || c == '\x0c' || c == '\r'

/-- A `\b` word boundary between the previously consumed character and
the head of the remaining input. -/
def atBoundary (prev : Option Char) (s : List Char) : Bool :=
  (match prev with | none => false | some c => isWordChar c) !=
  (match s with | [] => false | c :: _ => isWordChar c)

/-- Backtracking CPS matcher: `matchFuel f r prev s k` holds when `r`
matches a prefix of `s` (with `prev` the character just before `s`, for
word boundaries) and the continuation `k` accepts the rest.  The fuel
`f` bounds the recursion depth (it decreases at every node, keeping the
definition structurally recursive and hence kernel-reducible); a `star`
iteration whose body matched the empty string is thereby cut off.  Every
starred subexpression of the signature tables (`.*`, `[^>]*`, `\s*`,
`\w+`) consumes at least one character per iteration, so the bound
`(r.size + 2) * (s.length + 2)` used by `searchAux` is exhaustive and
the matcher agrees with Go's unbounded matching on these patterns. -/
def matchFuel : Nat → Regex → Option Char → List Char →
    (Option Char → List Char → Bool) → Bool
  | 0, _, _, _, _ => false
  | _ + 1, .emp, prev, s, k => k prev s
  | _ + 1, .wordB, prev, s, k => atBoundary prev s && k prev s
  | _ + 1, .chr c, _, s, k =>
      match s with
      | [] => false
      | a :: rest => a == c && k (some a) rest
  | _ + 1, .cls p, _, s, k =>
      match s with
      | [] => false
      | a :: rest => p a && k (some a) rest
  | _ + 1, .anyc, _, s, k =>
      match s with
      | [] => false
      | a :: rest => a != '\n' && k (some a) rest
  | f + 1, .cat r t, prev, s, k =>
      matchFuel f r prev s (fun p2 s2 => matchFuel f t p2 s2 k)
  | f + 1, .alt r t, prev, s, k =>
      matchFuel f r prev s k || matchFuel f t prev s k
  | f + 1, .star r, prev, s, k =>
      k prev s ||
      matchFuel f r prev s (fun p2 s2 => matchFuel f (Regex.star r) p2 s2 k)

/-- Does a match of `r` start at some position of `s` (`prev` being the
character before the current position)? -/
def searchAux (r : Regex) (prev : Option Char) (s : List Char) : Bool :=
  matchFuel ((Regex.size r + 2) * (s.length + 2)) r prev s (fun _ _ => true) ||
  match s with
  | [] => false
  | c :: rest => searchAux r (some c) rest

/-- `pattern.MatchString(input)` for a `(?i)` pattern written in lower
case: match anywhere in the lower-cased input. -/
def MatchString (r : Regex) (s : String) : Bool :=
  searchAux r none (s.data.map Char.toLower)

/-- Literal-string regex. -/
def strR (s : String) : Regex :=
  s.data.foldr (fun c r => Regex.cat (Regex.chr c) r) Regex.emp

/-- `.*` -/
def dotStar : Regex := Regex.star Regex.anyc

/-- `\bw\b` for a literal word `w`. -/
def wordStr (w : String) : Regex :=
  Regex.cat Regex.wordB (Regex.cat (strR w) Regex.wordB)

/-- `\w+` -/
def wordPlus : Regex := Regex.cat (Regex.cls isWordChar) (Regex.star (Regex.cls isWordChar))

/-- `\s*` -/
def spaceStar : Regex := Regex.star (Regex.cls isPerlSpace)

/-- `[^>]*` -/
def notGtStar : Regex := Regex.star (Regex.cls (fun c => c != '>'))

/-- `sqlInjectionPatterns`, in source order:
`(?i)(\bunion\b.*\bselect\b)`, `(?i)(\bselect\b.*\bfrom\b)`,
`(?i)(\binsert\b.*\binto\b)`, `(?i)(\bupdate\b.*\bset\b)`,
`(?i)(\bdelete\b.*\bfrom\b)`, `(?i)(\bdrop\b.*\btable\b)`,
`(?i)(\bexec\b|\bexecute\b)`, the comment delimiters
`(?i)(--|#|/\*|\*/)`, `(?i)(\bor\b.*=.*)`, `(?i)(\band\b.*=.*)` and the
quote-semicolon pair `(?i)(';|";)`. -/
def sqlInjectionPatterns : List Regex :=
  [ Regex.cat (wordStr "union") (Regex.cat dotStar (wordStr "select")),
    Regex.cat (wordStr "select") (Regex.cat dotStar (wordStr "from")),
    Regex.cat (wordStr "insert") (Regex.cat dotStar (wordStr "into")),
    Regex.cat (wordStr "update") (Regex.cat dotStar (wordStr "set")),
    Regex.cat (wordStr "delete") (Regex.cat dotStar (wordStr "from")),
    Regex.cat (wordStr "drop") (Regex.cat dotStar (wordStr "table")),
    Regex.alt (wordStr "exec") (wordStr "execute"),
    Regex.alt (strR "--") (Regex.alt (strR "#") (Regex.alt (strR "/*") (strR "*/"))),
    Regex.cat (wordStr "or") (Regex.cat dotStar (Regex.cat (Regex.chr '=') dotStar)),
    Regex.cat (wordStr "and") (Regex.cat dotStar (Regex.cat (Regex.chr '=') dotStar)),
    Regex.alt (strR "';") (strR "\";") ]

/-- `xssPatterns`, in source order: `(?i)(<script[^>]*>.*?</script>)`,
`(?i)(<iframe[^>]*>.*?</iframe>)`, `(?i)(javascript:)`,
`(?i)(on\w+\s*=)` and `(?i)(<img[^>]*onerror[^>]*>)`. -/
def xssPatterns : List Regex :=
  [ Regex.cat (strR "<script") (Regex.cat notGtStar (Regex.cat (Regex.chr '>')
      (Regex.cat dotStar (strR "</script>")))),
    Regex.cat (strR "<iframe") (Regex.cat notGtStar (Regex.cat (Regex.chr '>')
      (Regex.cat dotStar (strR "</iframe>")))),
    strR "javascript:",
    Regex.cat (strR "on") (Regex.cat wordPlus (Regex.cat spaceStar (Regex.chr '='))),
    Regex.cat (strR "<img") (Regex.cat notGtStar (Regex.cat (strR "onerror")
      (Regex.cat notGtStar (Regex.chr '>')))) ]

/-- Does `sub` occur contiguously in the character list? -/
def hasSubstring (sub : List Char) : List Char → Bool
  | [] => sub.isEmpty
  | c :: rest => sub.isPrefixOf (c :: rest) || hasSubstring sub rest

/-- `strings.Contains(s, sub)`. -/
def containsSub (s sub : String) : Bool := hasSubstring sub.data s.data

/-- `middleware.isSuspicious`: any SQL-injection pattern matches, any XSS
pattern matches, or the input contains a doubled quote (`''` or `""`). -/
def isSuspicious (input : String) : Bool :=
  sqlInjectionPatterns.any (fun p => MatchString p input) ||
  xssPatterns.any (fun p => MatchString p input) ||
  containsSub input "''" || containsSub input "\"\""

/-- Go `strings.ReplaceAll` on character lists, for a non-empty pattern
(every use below has one): replace non-overlapping occurrences of `pat`
left to right with `rep`, continuing after the replaced portion.  The
scan consumes one character per step; after emitting `rep` for a match,
`skip` counts the matched characters still to be consumed silently. -/
def replaceSkip (pat rep : List Char) (skip : Nat) : List Char → List Char
  | [] => []
  | c :: rest =>
      match skip with
      | n + 1 => replaceSkip pat rep n rest
      | 0 =>
          if pat.isPrefixOf (c :: rest) then
            rep ++ replaceSkip pat rep (pat.length - 1) rest
          else
            c :: replaceSkip pat rep 0 rest

/-- Go `strings.ReplaceAll(s, pat, rep)` for a non-empty `pat`. -/
def ReplaceAll (s pat rep : String) : String :=
  String.mk (replaceSkip pat.data rep.data 0 s.data)

/-- Go `unicode.IsSpace`: the Unicode White_Space code points
(TAB..CR, SPACE, NEL, NBSP, OGHAM SPACE MARK, U+2000..U+200A, LINE and
PARAGRAPH SEPARATOR, NARROW NBSP, MATH SPACE, IDEOGRAPHIC SPACE). -/
def goIsSpace (c : Char) : Bool :=
  let n := c.toNat
  (decide (9 <= n) && decide (n <= 13)) || n == 32 ||
  n == 0x85 || n == 0xA0 || n == 0x1680 ||
  (decide (0x2000 <= n) && decide (n <= 0x200A)) ||
  n == 0x2028 || n == 0x2029 || n == 0x202F || n == 0x205F || n == 0x3000

/-- Drop a predicate-satisfying suffix. -/
def dropTrailing (p : Char → Bool) (s : List Char) : List Char :=
  (s.reverse.dropWhile p).reverse

/-- Go `strings.TrimSpace` on character lists. -/
def trimList (s : List Char) : List Char :=
  dropTrailing goIsSpace (s.dropWhile goIsSpace)

/-- Go `strings.TrimSpace`. -/
def TrimSpace (s : String) : String := String.mk (trimList s.data)

/-- `middleware.SanitizeString`: sequentially removes the SQL comment
delimiters `--`, `/*`, `*/`, `#`, then collapses `''` to `'` and `""` to
`"`, then trims whitespace — each step one `strings.ReplaceAll` pass,
in exactly this order. -/
def SanitizeString (input : String) : String :=
  let i1 := ReplaceAll input "--" ""
  let i2 := ReplaceAll i1 "/*" ""
  let i3 := ReplaceAll i2 "*/" ""
  let i4 := ReplaceAll i3 "#" ""
  let i5 := ReplaceAll i4 "''" "'"
  let i6 := ReplaceAll i5 "\"\"" "\""
  TrimSpace i6

/-! ## internal/auth/jwt_generator.go -/

/-- The fields of `config.JWTConfig` read by `NewJWTGenerator`.
Durations are in nanoseconds (Go `time.Duration` ticks). -/
structure JWTConfig where
  Secret : String
  AccessTokenTTL : Nat
  RefreshTokenTTL : Nat
  TTLHours : Nat
deriving DecidableEq, Repr

/-- The `jwtGenerator` struct: the state a constructed generator holds
(`hasDB` stands for the `*gorm.DB` handle, used only for later role
lookups). -/
structure JwtGenerator where
  jwtSecret : String
  accessTokenTTL : Nat
  refreshTokenTTL : Nat
  hasDB : Bool
deriving DecidableEq, Repr

/-- The built-in development fallback secret. -/
def defaultDevSecret : String := "default-secret-change-in-production"

/-- `time.Minute` in nanoseconds. -/
def goMinute : Nat := 60000000000

/-- `time.Hour` in nanoseconds. -/
def goHour : Nat := 3600000000000

/-- `auth.NewJWTGenerator`: substitutes the built-in default for an
empty secret and fills in TTL defaults (15 min access, falling back to
`TTLHours` when positive; 168 h refresh).  The Go function returns the
generator directly — its signature has no error result, it consults no
environment indicator, and its body contains no logging call, so the
model is a total function into `JwtGenerator`. -/
def NewJWTGenerator (cfg : JWTConfig) (hasDB : Bool) : JwtGenerator :=
  let jwtSecret := if cfg.Secret = "" then defaultDevSecret else cfg.Secret
  let accessTokenTTL :=
    if cfg.AccessTokenTTL = 0 then
      if cfg.TTLHours > 0 then cfg.TTLHours * goHour else 15 * goMinute
    else cfg.AccessTokenTTL
  let refreshTokenTTL :=
    if cfg.RefreshTokenTTL = 0 then 168 * goHour else cfg.RefreshTokenTTL
  { jwtSecret := jwtSecret, accessTokenTTL := accessTokenTTL,
    refreshTokenTTL := refreshTokenTTL, hasDB := hasDB }

/-! ## Auxiliary computation lemmas -/

/-- The role read back after attaching a principal is the one attached. -/
theorem getUserRole_attach (c : GinContext) (u : Nat) (r : String) :
    GetUserRole (attachPrincipal u r c) = r := rfl

/-- The id read back after attaching a principal is the one attached. -/
theorem getUserID_attach (c : GinContext) (u : Nat) (r : String) :
    GetUserID (attachPrincipal u r c) = u := rfl

/-- A present-and-nonempty identity value is a 32-bit decimal numeral:
all characters are ASCII digits and the denoted value fits in 32 bits. -/
def decimal32 (s : String) : Prop :=
  s.data.all charIsDigit = true ∧ digitsVal s < 2 ^ 32

instance (s : String) : Decidable (decimal32 s) := by
  unfold decimal32
  infer_instance

/-- On a nonempty input, `ParseUint(s, 10, 32)` succeeds with the
denoted value exactly on 32-bit decimal numerals. -/
theorem parseUint32_eq (s : String) (hne : s ≠ "") :
    parseUint32 s = if decimal32 s then some (digitsVal s) else none := by
  have hempty : s.isEmpty = false := by
    rw [Bool.eq_false_iff]
    intro h
    exact hne ((String.isEmpty_iff s).mp h)
  unfold parseUint32 decimal32
  rw [hempty]
  simp only [Bool.false_eq_true, if_false]
  by_cases hd : s.data.all charIsDigit = true
  · by_cases hv : digitsVal s < 2 ^ 32
    · rw [if_pos hd, if_pos hv, if_pos ⟨hd, hv⟩]
    · rw [if_pos hd, if_neg hv, if_neg (fun h => hv h.2)]
  · rw [if_neg hd, if_neg (fun h => hd h.1)]

/-! ## Claim theorems -/

/-- C1: for every principal (attached user id `u` and role `r` in the
request context) and every target user id `t`, `CanAccessUser` returns
true if the principal's role equals `"admin"`, regardless of `t`;
otherwise it returns true if and only if the principal's id equals `t`. -/
theorem canAccessUser_spec (c : GinContext) (u t : Nat) (r : String) :
    (r = "admin" → CanAccessUser (attachPrincipal u r c) t = true) ∧
    (r ≠ "admin" → (CanAccessUser (attachPrincipal u r c) t = true ↔ u = t)) := by
  have hrole : GetUserRole (attachPrincipal u r c) = r := getUserRole_attach c u r
  have hid : GetUserID (attachPrincipal u r c) = u := getUserID_attach c u r
  constructor
  · intro h
    unfold CanAccessUser IsAdmin HasRole
    rw [hrole, h]
    simp
  · intro h
    unfold CanAccessUser IsAdmin HasRole
    rw [hrole, hid]
    simp [h]

/-- Witness for C1: an admin principal with id 5 may access user 9, and
a non-admin principal with id 5 may access 5 but not 9. -/
theorem canAccessUser_spec_witness :
    CanAccessUser (attachPrincipal 5 "admin" emptyCtx) 9 = true ∧
    (CanAccessUser (attachPrincipal 5 "user" emptyCtx) 5 = true ↔ (5 : Nat) = 5) ∧
    (CanAccessUser (attachPrincipal 5 "user" emptyCtx) 9 = true ↔ (5 : Nat) = 9) :=
  ⟨(canAccessUser_spec emptyCtx 5 9 "admin").1 rfl,
   (canAccessUser_spec emptyCtx 5 5 "user").2 (by decide),
   (canAccessUser_spec emptyCtx 5 9 "user").2 (by decide)⟩

/-- C9: attaching a principal (`SetUserID u` then `SetUserRole r`) once,
or any number of further times, makes `GetUserID` return exactly `u` and
`GetUserRole` return exactly `r` — the setter/getter pair round-trips
and repetition does not change subsequent reads. -/
theorem contextStore_roundtrip_idempotent (c : GinContext) (u n : Nat) (r : String) :
    GetUserID ((attachPrincipal u r)^[n + 1] c) = u ∧
    GetUserRole ((attachPrincipal u r)^[n + 1] c) = r := by
  rw [Function.iterate_succ_apply']
  exact ⟨getUserID_attach _ u r, getUserRole_attach _ u r⟩

/-- C4: a request whose `X-User-ID` header is absent (gin's `GetHeader`
yields the empty string) is rejected by `GatewayAuthMiddleware` with 401
"missing user ID header"; the `reject` outcome aborts the pipeline, so
no handler runs, and the returned context is the untouched input
context, so no principal was attached. -/
theorem gatewayAuth_missing_header (role : String) (c : GinContext) :
    GatewayAuthMiddleware ⟨"", role⟩ c =
      GateResult.reject 401 "missing user ID header" c := rfl

/-- C10: a request with `X-User-ID: 0` passes `GatewayAuthMiddleware`
(which stores id 0 in the context), yet on the resulting context
`IsAuthenticated` is false and `MustGetUserID` yields the user-ID-not-
found error — a zero identity is indistinguishable downstream from an
absent principal. -/
theorem zeroId_passes_extractor_but_unauthenticated (role : String) (c : GinContext) :
    ∃ c2, GatewayAuthMiddleware ⟨"0", role⟩ c = GateResult.proceed c2 ∧
      GetUserIDFromContext c2 = some 0 ∧
      IsAuthenticated c2 = false ∧
      MustGetUserID c2 = Except.error "user ID not found in context" := by
  refine ⟨_, rfl, rfl, rfl, rfl⟩

/-- C2: with a principal role `r` attached, the variadic `RequireRole`
gate passes control onward exactly when `r` case-insensitively equals
some member of the required list; in particular an empty requirement
list rejects every principal (403), never meaning "always pass". -/
theorem requireRole_gate_spec (roles : List String) (c : GinContext) (r : String)
    (h : GetUserRoleFromContext c = some r) :
    ((RequireRole roles c = GateResult.proceed c) ↔
      ∃ q ∈ roles, EqualFold r q = true) ∧
    (roles = [] →
      RequireRole roles c = GateResult.reject 403 "insufficient permissions" c) := by
  have hstep : RequireRole roles c =
      if roles.any (fun q => EqualFold r q) then GateResult.proceed c
      else GateResult.reject 403 "insufficient permissions" c := by
    unfold RequireRole
    rw [h]
  constructor
  · rw [hstep]
    by_cases hA : roles.any (fun q => EqualFold r q) = true
    · rw [if_pos hA]
      simp only [List.any_eq_true] at hA
      exact ⟨fun _ => hA, fun _ => rfl⟩
    · rw [if_neg hA]
      constructor
      · intro hcontra
        exact absurd hcontra (by simp)
      · intro hex
        exact absurd (List.any_eq_true.mpr hex) hA
  · intro he
    subst he
    rw [hstep]
    simp

/-- Witness for C2: a principal with role `"Admin"` passes the gate for
`["admin"]` (case-folded match) but is rejected both by `["editor"]`
and by the empty requirement list. -/
theorem requireRole_gate_witness :
    RequireRole ["admin"] (SetUserRole emptyCtx "Admin") =
      GateResult.proceed (SetUserRole emptyCtx "Admin") ∧
    RequireRole ["editor"] (SetUserRole emptyCtx "Admin") ≠
      GateResult.proceed (SetUserRole emptyCtx "Admin") ∧
    RequireRole [] (SetUserRole emptyCtx "Admin") =
      GateResult.reject 403 "insufficient permissions" (SetUserRole emptyCtx "Admin") :=
  ⟨((requireRole_gate_spec ["admin"] (SetUserRole emptyCtx "Admin") "Admin" rfl).1).mpr
      ⟨"admin", by decide⟩,
   fun hcontra =>
     absurd (((requireRole_gate_spec ["editor"] (SetUserRole emptyCtx "Admin")
        "Admin" rfl).1).mp hcontra) (by decide),
   (requireRole_gate_spec [] (SetUserRole emptyCtx "Admin") "Admin" rfl).2 rfl⟩

/-- C3: for a present identity header value `s` (nonempty — gin's
`GetHeader` returns `""` for an absent header, the case of C4): if `s`
is a decimal numeral denoting a value below `2^32`, the extractor
proceeds and stores that value as the principal's id; otherwise it
rejects with 401 "invalid user ID format" (MalformedIdentity), so the
handler is never reached. -/
theorem gatewayAuth_parse_spec (s role : String) (c : GinContext) (hpres : s ≠ "") :
    (decimal32 s →
      ∃ c2, GatewayAuthMiddleware ⟨s, role⟩ c = GateResult.proceed c2 ∧
        GetUserIDFromContext c2 = some (digitsVal s)) ∧
    (¬ decimal32 s →
      GatewayAuthMiddleware ⟨s, role⟩ c =
        GateResult.reject 401 "invalid user ID format" c) := by
  constructor
  · intro hd
    apply Exists.intro
    constructor
    · unfold GatewayAuthMiddleware
      rw [if_neg hpres, parseUint32_eq s hpres, if_pos hd]
    · rfl
  · intro hd
    unfold GatewayAuthMiddleware
    rw [if_neg hpres, parseUint32_eq s hpres, if_neg hd]

/-- Witness for C3: header value `"7"` yields a principal with id 7;
header value `"abc"` (and the out-of-range `"4294967296"`) is rejected
as malformed. -/
theorem gatewayAuth_parse_witness :
    (∃ c2, GatewayAuthMiddleware ⟨"7", ""⟩ emptyCtx = GateResult.proceed c2 ∧
      GetUserIDFromContext c2 = some (digitsVal "7")) ∧
    GatewayAuthMiddleware ⟨"abc", ""⟩ emptyCtx =
      GateResult.reject 401 "invalid user ID format" emptyCtx ∧
    GatewayAuthMiddleware ⟨"4294967296", ""⟩ emptyCtx =
      GateResult.reject 401 "invalid user ID format" emptyCtx :=
  ⟨(gatewayAuth_parse_spec "7" "" emptyCtx (by decide)).1 (by decide),
   (gatewayAuth_parse_spec "abc" "" emptyCtx (by decide)).2 (by decide),
   (gatewayAuth_parse_spec "4294967296" "" emptyCtx (by decide)).2 (by decide)⟩

/-- Counterexample to C5: with role `"Admin"` stored and requested role
`"admin"` — case-insensitively equal, as `EqualFold` confirms —
`contextutil.HasRole` returns false: its comparison is exact string
equality, not case-insensitive. -/
theorem hasRole_caseSensitive_cex :
    EqualFold "Admin" "admin" = true ∧
    HasRole (SetUserRole emptyCtx "Admin") "admin" = false := by
  constructor <;> decide

/-- C5 as amended: the role string stored by `GatewayAuthMiddleware`
preserves its original casing from the header, and role matching inside
the variadic `RequireRole` gate is case-insensitive (`EqualFold`), but
`contextutil.HasRole` compares the stored role to the requested role
case-sensitively (exact string equality). -/
theorem roleComparison_amended (r q : String) (c : GinContext) (hr : r ≠ "") :
    ∃ c2, GatewayAuthMiddleware ⟨"7", r⟩ c = GateResult.proceed c2 ∧
      GetUserRole c2 = r ∧
      (HasRole c2 q = true ↔ r = q) ∧
      (RequireRole [q] c2 = GateResult.proceed c2 ↔ EqualFold r q = true) := by
  refine ⟨(c.set ContextKeyUserID (CtxValue.vUInt 7)).set
      ContextKeyUserRole (CtxValue.vString r), ?_, ?_, ?_, ?_⟩
  · show GateResult.proceed
        ((c.set ContextKeyUserID (CtxValue.vUInt 7)).set ContextKeyUserRole
          (CtxValue.vString (if r = "" then "user" else r))) =
      GateResult.proceed
        ((c.set ContextKeyUserID (CtxValue.vUInt 7)).set ContextKeyUserRole
          (CtxValue.vString r))
    rw [if_neg hr]
  · rfl
  · show (r == q) = true ↔ r = q
    exact beq_iff_eq
  · have hrole : GetUserRoleFromContext
        ((c.set ContextKeyUserID (CtxValue.vUInt 7)).set
          ContextKeyUserRole (CtxValue.vString r)) = some r := rfl
    have hmain := (requireRole_gate_spec [q]
      ((c.set ContextKeyUserID (CtxValue.vUInt 7)).set
        ContextKeyUserRole (CtxValue.vString r)) r hrole).1
    rw [hmain]
    constructor
    · rintro ⟨q2, hq2, hEq⟩
      rw [List.mem_singleton] at hq2
      rw [hq2] at hEq
      exact hEq
    · intro hEq
      exact ⟨q, List.mem_singleton.mpr rfl, hEq⟩

/-- Witness for C5 amended: header role `"Admin"` is stored verbatim;
`HasRole` with `"admin"` fails on it while the `RequireRole ["admin"]`
gate passes it. -/
theorem roleComparison_amended_witness :
    ∃ c2, GatewayAuthMiddleware ⟨"7", "Admin"⟩ emptyCtx = GateResult.proceed c2 ∧
      GetUserRole c2 = "Admin" ∧
      (HasRole c2 "admin" = true ↔ ("Admin" : String) = "admin") ∧
      (RequireRole ["admin"] c2 = GateResult.proceed c2 ↔
        EqualFold "Admin" "admin" = true) :=
  roleComparison_amended "Admin" "admin" emptyCtx (by decide)

/-- C6: the suspicious-input predicate of the Input Sanitation Filter
rejects each of the four attack literals `1' OR '1'='1`,
`<script>alert(1)</script>`, `1; DROP TABLE users;--` and `1" OR ""="`,
and accepts each of the ordinary literals `alice`, `42`, `2024-01-01`. -/
theorem suspicious_literals :
    isSuspicious "1' OR '1'='1" = true ∧
    isSuspicious "<script>alert(1)</script>" = true ∧
    isSuspicious "1; DROP TABLE users;--" = true ∧
    isSuspicious "1\" OR \"\"=\"" = true ∧
    isSuspicious "alice" = false ∧
    isSuspicious "42" = false ∧
    isSuspicious "2024-01-01" = false := by
  refine ⟨?_, ?_, ?_, ?_, ?_, ?_, ?_⟩ <;> decide

/-- C8 (code evaluated at the failing input): constructing the JWT
generator with an empty configured secret silently yields a generator
whose effective secret is the well-known development default — the Go
constructor's signature has no error result, it consults no environment
indicator and its body contains no logging call, so no startup failure
or warning can occur in any environment. -/
theorem newJWTGenerator_adopts_default_silently :
    NewJWTGenerator ⟨"", 0, 0, 0⟩ false =
      { jwtSecret := defaultDevSecret, accessTokenTTL := 15 * goMinute,
        refreshTokenTTL := 168 * goHour, hasDB := false } := rfl

/-! ## Lemmas about a single `ReplaceAll` pass -/

/-- Every character of a `replaceSkip` output comes from the input or
from the replacement. -/
theorem mem_replaceSkip (pat rep : List Char) (a : Char) :
    ∀ (k : Nat) (s : List Char), a ∈ replaceSkip pat rep k s → a ∈ s ∨ a ∈ rep := by
  intro k s
  induction s generalizing k with
  | nil =>
    intro h
    simp [replaceSkip] at h
  | cons c rest ih =>
    intro h
    cases k with
    | succ n =>
      simp only [replaceSkip] at h
      rcases ih n h with h1 | h2
      · exact Or.inl (List.mem_cons_of_mem c h1)
      · exact Or.inr h2
    | zero =>
      simp only [replaceSkip] at h
      by_cases hp : pat.isPrefixOf (c :: rest) = true
      · rw [if_pos hp] at h
        rcases List.mem_append.mp h with h2 | h1
        · exact Or.inr h2
        · rcases ih _ h1 with h1 | h2
          · exact Or.inl (List.mem_cons_of_mem c h1)
          · exact Or.inr h2
      · rw [if_neg hp] at h
        rcases List.mem_cons.mp h with h1 | h1
        · exact Or.inl (h1 ▸ List.mem_cons_self c rest)
        · rcases ih 0 h1 with h1 | h2
          · exact Or.inl (List.mem_cons_of_mem c h1)
          · exact Or.inr h2

/-- Deleting all occurrences of a single character really removes it:
the character never appears in the output. -/
theorem not_mem_replaceSkip_singleton (c0 : Char) :
    ∀ s : List Char, c0 ∉ replaceSkip [c0] [] 0 s := by
  intro s
  induction s with
  | nil => simp [replaceSkip]
  | cons c rest ih =>
    simp only [replaceSkip]
    by_cases hp : List.isPrefixOf [c0] (c :: rest) = true
    · rw [if_pos hp]
      simpa using ih
    · rw [if_neg hp]
      intro hmem
      rcases List.mem_cons.mp hmem with h1 | h1
      · apply hp
        rw [h1]
        simp [List.isPrefixOf]
      · exact ih h1

/-! ## Lemmas about `TrimSpace` -/

/-- The head of `dropWhile p` fails `p`. -/
theorem dropWhile_head_not (p : Char → Bool) :
    ∀ (l : List Char) (a : Char) (t : List Char),
      l.dropWhile p = a :: t → p a = false := by
  intro l
  induction l with
  | nil =>
    intro a t h
    simp [List.dropWhile] at h
  | cons c rest ih =>
    intro a t h
    rw [List.dropWhile_cons] at h
    by_cases hc : p c = true
    · rw [if_pos hc] at h
      exact ih a t h
    · rw [if_neg hc] at h
      cases h
      exact Bool.not_eq_true _ ▸ hc

/-- `dropWhile` removes a prefix of the list. -/
theorem dropWhile_suffix_decomp (p : Char → Bool) (l : List Char) :
    ∃ u, l = u ++ l.dropWhile p := by
  induction l with
  | nil => exact ⟨[], rfl⟩
  | cons c rest ih =>
    rw [List.dropWhile_cons]
    by_cases hc : p c = true
    · rw [if_pos hc]
      rcases ih with ⟨u, hu⟩
      exact ⟨c :: u, by rw [List.cons_append, ← hu]⟩
    · rw [if_neg hc]
      exact ⟨[], rfl⟩

/-- `dropTrailing` removes a suffix of the list. -/
theorem dropTrailing_decomp (p : Char → Bool) (l : List Char) :
    ∃ t, l = dropTrailing p l ++ t := by
  rcases dropWhile_suffix_decomp p l.reverse with ⟨u, hu⟩
  refine ⟨u.reverse, ?_⟩
  unfold dropTrailing
  calc l = l.reverse.reverse := (List.reverse_reverse l).symm
    _ = (u ++ l.reverse.dropWhile p).reverse := by rw [← hu]
    _ = (l.reverse.dropWhile p).reverse ++ u.reverse := List.reverse_append u _

/-- The first character of a trimmed list is not whitespace. -/
theorem trimList_head_not_space (s : List Char) (a : Char) (t : List Char)
    (h : trimList s = a :: t) : goIsSpace a = false := by
  unfold trimList at h
  rcases dropTrailing_decomp goIsSpace (s.dropWhile goIsSpace) with ⟨u, hu⟩
  rw [h] at hu
  exact dropWhile_head_not goIsSpace s a (t ++ u) (by rw [hu]; rfl)

/-- The last character of a trimmed list is not whitespace. -/
theorem trimList_getLast_not_space (s : List Char) (b : Char)
    (h : (trimList s).getLast? = some b) : goIsSpace b = false := by
  unfold trimList dropTrailing at h
  rw [List.getLast?_reverse] at h
  cases hd : ((s.dropWhile goIsSpace).reverse.dropWhile goIsSpace) with
  | nil =>
    rw [hd] at h
    simp at h
  | cons x xs =>
    rw [hd] at h
    simp only [List.head?_cons, Option.some_inj] at h
    rw [← h]
    exact dropWhile_head_not goIsSpace _ x xs hd

/-- Every character of a trimmed list occurs in the input. -/
theorem mem_trimList (s : List Char) (a : Char) (h : a ∈ trimList s) : a ∈ s := by
  unfold trimList dropTrailing at h
  have h1 : a ∈ (s.dropWhile goIsSpace).reverse.dropWhile goIsSpace :=
    List.mem_reverse.mp h
  have h2 : a ∈ (s.dropWhile goIsSpace).reverse :=
    (List.dropWhile_sublist goIsSpace).subset h1
  exact (List.dropWhile_sublist goIsSpace).subset (List.mem_reverse.mp h2)

/-- Counterexample to C7: on the input `-#- /#* *#/ '''' """"`,
`SanitizeString` returns `-- /* */ '' ""`, which contains every comment
delimiter and doubled-quote sequence the claim says is absent — the
single left-to-right pass removes each `#`, splicing the surrounding
characters into fresh `--`, `/*`, `*/` delimiters, and collapsing four
quotes yields a doubled quote again. -/
theorem sanitize_reintroduces_delimiters_cex :
    SanitizeString "-#- /#* *#/ '''' \"\"\"\"" = "-- /* */ '' \"\"" ∧
    containsSub (SanitizeString "-#- /#* *#/ '''' \"\"\"\"") "--" = true ∧
    containsSub (SanitizeString "-#- /#* *#/ '''' \"\"\"\"") "/*" = true ∧
    containsSub (SanitizeString "-#- /#* *#/ '''' \"\"\"\"") "*/" = true ∧
    containsSub (SanitizeString "-#- /#* *#/ '''' \"\"\"\"") "''" = true ∧
    containsSub (SanitizeString "-#- /#* *#/ '''' \"\"\"\"") "\"\"" = true := by
  refine ⟨?_, ?_, ?_, ?_, ?_, ?_⟩ <;> decide

/-- C7 as amended: for every input, `SanitizeString`'s result contains
no `#` character and has no leading or trailing whitespace; the
single-pass removals of the two-character delimiters and the quote
collapsing may, however, reintroduce `--`, `/*`, `*/`, `''` and `""`
(as the counterexample shows), so only the `#`-freeness and the
trimming survive of the claimed postcondition. -/
theorem sanitize_amended (s : String) :
    ('#' ∈ (SanitizeString s).data → False) ∧
    (∀ a t, (SanitizeString s).data = a :: t → goIsSpace a = false) ∧
    (∀ b, (SanitizeString s).data.getLast? = some b → goIsSpace b = false) := by
  have hdata : (SanitizeString s).data =
      trimList (replaceSkip ['"', '"'] ['"'] 0
        (replaceSkip ['\'', '\''] ['\''] 0
          (replaceSkip ['#'] [] 0
            (replaceSkip ['*', '/'] [] 0
              (replaceSkip ['/', '*'] [] 0
                (replaceSkip ['-', '-'] [] 0 s.data)))))) := rfl
  refine ⟨?_, ?_, ?_⟩
  · intro hmem
    rw [hdata] at hmem
    have h6 := mem_trimList _ _ hmem
    rcases mem_replaceSkip _ _ _ _ _ h6 with h5 | h5
    · rcases mem_replaceSkip _ _ _ _ _ h5 with h4 | h4
      · exact not_mem_replaceSkip_singleton '#' _ h4
      · simp at h4
    · simp at h5
  · intro a t h
    rw [hdata] at h
    exact trimList_head_not_space _ a t h
  · intro b h
    rw [hdata] at h
    exact trimList_getLast_not_space _ b h

/-- Witness for C7 amended: `SanitizeString " a# "` evaluates to `"a"`;
its data is `['a']`, whose head is not whitespace, and `#` is absent. -/
theorem sanitize_amended_witness :
    ('#' ∈ (SanitizeString " a# ").data → False) ∧ goIsSpace 'a' = false :=
  ⟨(sanitize_amended " a# ").1,
   (sanitize_amended " a# ").2.1 'a' [] (by decide)⟩
